import Mathlib

/-!
# Verification of the e-ink display firmware core

Shallow embedding of `src/esp32-firmware/src/main.cpp`: the acquisition /
decode / render / sleep cycle of the ESP32 prayer-times-and-weather e-ink
display.  Pure logic (JSON decoding, sleep computation, icon classification,
the cycle's control flow and the draw-command sequences) is translated
directly from the C++ source; external collaborators (WiFi link, HTTP
transport, the ArduinoJson parser, the RTC clock, libm trigonometry and the
u8g2 text-width measurement) appear as explicit parameters.
-/

namespace EInk

/-! ## JSON document model

Models the ArduinoJson `JsonDocument` / `JsonVariant` value universe as seen
by `fetchPrayerTimes`.  Numbers parsed without a decimal point or exponent are
stored as integers (`jint`), all other numbers as floating-point (`jfloat`,
modelled by rationals); this mirrors ArduinoJson's storage classes, which its
`is<T>` checks (and hence the `|` default operator) dispatch on. -/
inductive Json where
  | null : Json
  | jbool (b : Bool) : Json
  | jint (n : Int) : Json
  | jfloat (q : Rat) : Json
  | str (s : String) : Json
  | arr (xs : List Json) : Json
  | obj (fields : List (String × Json)) : Json

/-- `doc["key"]`: member access on a variant.  On a non-object (including the
null variant) it yields the null variant; on an object it yields the first
binding of the key (ArduinoJson returns the first match). -/
def Json.member : Json → String → Json
  | .obj fields, k =>
    match fields.lookup k with
    | some v => v
    | none => .null
  | _, _ => .null

/-- `JsonObject o = v; !o.isNull()`: the cast of a variant to `JsonObject`
is non-null exactly when the variant is an object. -/
def Json.isObj : Json → Bool
  | .obj _ => true
  | _ => false

/-- `v | dflt` with a string default: ArduinoJson yields the stored string
when the variant is a string, otherwise the default. -/
def getStrOr (v : Json) (dflt : String) : String :=
  match v with
  | .str s => s
  | _ => dflt

/-- `v | 0` with an integer default: yields the stored integer when the
variant is an integer number, otherwise the default. -/
def getIntOr (v : Json) (dflt : Int) : Int :=
  match v with
  | .jint n => n
  | _ => dflt

/-- `v | 0.0f` with a float default: yields the stored number (integers
convert to float) when the variant is numeric, otherwise the default. -/
def getFloatOr (v : Json) (dflt : Rat) : Rat :=
  match v with
  | .jint n => (n : Rat)
  | .jfloat q => q
  | _ => dflt

/-! ## Decoded data model (the global structs of `main.cpp`) -/

/-- `struct PrayerTimes` with its member initializers. -/
structure PrayerTimes where
  fajr : String := "N/A"
  shuruq : String := "N/A"
  dhuhr : String := "N/A"
  asr : String := "N/A"
  maghrib : String := "N/A"
  isha : String := "N/A"
  location : String := ""
deriving DecidableEq

/-- `struct WeatherData` with its member initializers (`windSpeed` is a
`float` in the source, modelled as a rational). -/
structure WeatherData where
  temperature : Int := 0
  condition : String := "N/A"
  windSpeed : Rat := 0
  icon : String := ""
deriving DecidableEq

/-- `struct ForecastDay` with its member initializers. -/
structure ForecastDay where
  date : String := ""
  high : Int := 0
  low : Int := 0
  condition : String := ""
deriving DecidableEq

/-- The decode stage's only hard error: the mandatory `prayer_times` section
is absent or not an object (`errorMsg = "No prayer_times"`, lines 137-141). -/
inductive DecodeError where
  | missingSection (name : String)
deriving DecidableEq

/-- The data snapshot produced by a successful decode: the three global
structs as left by `fetchPrayerTimes`.  `forecast` models the global
`ForecastDay forecast[3]` array as a list of length 3. -/
structure Decoded where
  prayerTimes : PrayerTimes
  weatherData : WeatherData
  forecast : List ForecastDay
deriving DecidableEq

/-! ## Payload decoding (`fetchPrayerTimes`, lines 126-194) -/

/-- Lines 143-149: the prayer-time fields, each read with the `| "N/A"`
default, plus the top-level `location` with the `| ""` default. -/
def decodePrayerSection (doc times : Json) : PrayerTimes :=
  { fajr := getStrOr (times.member "fajr") "N/A"
    shuruq := getStrOr (times.member "shuruq") "N/A"
    dhuhr := getStrOr (times.member "dhuhr") "N/A"
    asr := getStrOr (times.member "asr") "N/A"
    maghrib := getStrOr (times.member "maghrib") "N/A"
    isha := getStrOr (times.member "isha") "N/A"
    location := getStrOr (doc.member "location") "" }

/-- Lines 164-167: the current-weather fields, each with its default. -/
def decodeCurrent (current : Json) : WeatherData :=
  { temperature := getIntOr (current.member "temperature") 0
    condition := getStrOr (current.member "condition") "N/A"
    windSpeed := getFloatOr (current.member "wind_speed") 0
    icon := getStrOr (current.member "icon") "" }

/-- Lines 181-185: one forecast entry.  `JsonObject day = forecastArray[i]`
is null when the element is not an object, in which case every `|` falls back
to its default (member access on a non-object yields the null variant). -/
def decodeDay (day : Json) : ForecastDay :=
  { date := getStrOr (day.member "date") ""
    high := getIntOr (day.member "high") 0
    low := getIntOr (day.member "low") 0
    condition := getStrOr (day.member "condition") "" }

/-- Lines 177-191: the loop `for (i = 0; i < 3 && i < forecastArray.size(); i++)`
overwrites the first `min 3 size` cells of the global `forecast[3]` array;
the remaining cells keep their construction-time defaults. -/
def decodeForecastList (xs : List Json) : List ForecastDay :=
  (xs.take 3).map decodeDay ++ List.replicate (3 - min 3 xs.length) ({} : ForecastDay)

/-- Lines 159-192: the optional `weather` section.  Current conditions are
read only when both `weather` and `weather["current"]` are objects; the
forecast only when `weather["forecast"]` is an array.  Anything absent leaves
the corresponding globals at their construction-time defaults. -/
def decodeWeatherSection (weather : Json) : WeatherData × List ForecastDay :=
  if weather.isObj then
    let current := weather.member "current"
    let wd := if current.isObj then decodeCurrent current else {}
    let fc :=
      match weather.member "forecast" with
      | .arr xs => decodeForecastList xs
      | _ => [({} : ForecastDay), ({} : ForecastDay), ({} : ForecastDay)]
    (wd, fc)
  else ({}, [({} : ForecastDay), ({} : ForecastDay), ({} : ForecastDay)])

/-- Lines 136-194 of `fetchPrayerTimes`, from the parsed document on: the
mandatory `prayer_times` object check (absence is the only decode error),
then the defaulted field reads. -/
def decode (doc : Json) : Except DecodeError Decoded :=
  let times := doc.member "prayer_times"
  if times.isObj then
    let wf := decodeWeatherSection (doc.member "weather")
    .ok { prayerTimes := decodePrayerSection doc times
          weatherData := wf.1
          forecast := wf.2 }
  else
    .error (.missingSection "prayer_times")

/-! ## Network acquisition (`fetchPrayerTimes`, lines 99-123) -/

/-- `HTTP_CODE_OK` from the ESP32 HTTPClient library. -/
def HTTP_CODE_OK : Int := 200

/-- `HTTPC_ERROR_READ_TIMEOUT` from the ESP32 HTTPClient library: `http.GET()`
reports a read timeout as this negative pseudo-code; connection and other
transport failures likewise surface as negative codes through the very same
integer return value that carries HTTP status codes. -/
def HTTPC_ERROR_READ_TIMEOUT : Int := -11

/-- Lines 112-123: the HTTP phase of `fetchPrayerTimes`.  `httpCode` is
whatever `http.GET()` returned (an HTTP status code, or a negative library
code for a timeout / link failure); `body` is the response body the transport
would deliver.  Any code other than `HTTP_CODE_OK` takes the single error
exit `errorMsg = "HTTP " + String(httpCode)`; on `HTTP_CODE_OK` the full body
is returned with no content validation. -/
def acquirePhase (httpCode : Int) (body : String) : Except String String :=
  if httpCode ≠ HTTP_CODE_OK then
    .error ("HTTP " ++ toString httpCode)
  else
    .ok body

/-! ## Global state and the cycle state machine (`setup`, lines 657-672) -/

/-- The firmware's global mutable state: the three data structs (with their
construction-time defaults) and `errorMsg`. -/
structure Globals where
  prayerTimes : PrayerTimes := {}
  weatherData : WeatherData := {}
  forecast : List ForecastDay :=
    [({} : ForecastDay), ({} : ForecastDay), ({} : ForecastDay)]
  errorMsg : String := ""
deriving DecidableEq

/-- Lines 75-97, `connectWiFi`: the link either comes up within the bounded
attempt loop (`wifiConnects = true`) or it does not, in which case
`errorMsg = "WiFi failed"` and `false` is returned.  The polling loop itself
is a bounded blocking wait with no other state effect. -/
def connectWiFi (wifiConnects : Bool) (g : Globals) : Bool × Globals :=
  if wifiConnects then (true, g)
  else (false, { g with errorMsg := "WiFi failed" })

/-- Lines 99-194, `fetchPrayerTimes`: HTTP fetch, then `deserializeJson`
(modelled by the injected `parse` collaborator: `none` is a syntax error),
then the decode of lines 136-194.  Every failure exit happens before the
first assignment to the data globals; on success all decoded fields are
stored. -/
def fetchPrayerTimes (parse : String → Option Json) (httpCode : Int)
    (body : String) (g : Globals) : Bool × Globals :=
  match acquirePhase httpCode body with
  | .error e => (false, { g with errorMsg := e })
  | .ok payload =>
    match parse payload with
    | none => (false, { g with errorMsg := "JSON error" })
    | some doc =>
      match decode doc with
      | .error _ => (false, { g with errorMsg := "No prayer_times" })
      | .ok d =>
        (true, { g with prayerTimes := d.prayerTimes
                        weatherData := d.weatherData
                        forecast := d.forecast })

/-! ## Wake scheduling (`calculateSleepSeconds`, lines 613-639) -/

/-- `#define WAKE_HOUR 0` -/
def WAKE_HOUR : Int := 0

/-- `#define WAKE_MINUTE 10` -/
def WAKE_MINUTE : Int := 10

/-- The fields of `struct tm` that `calculateSleepSeconds` reads. -/
structure TmInfo where
  tm_hour : Nat
  tm_min : Nat
  tm_sec : Nat
deriving DecidableEq

/-- Lines 613-639, `calculateSleepSeconds`: `clock` is the outcome of
`getLocalTime` (`none` when the clock collaborator fails).  On failure the
fallback is 86400 seconds; otherwise the seconds until the next occurrence of
the configured wake time, adding a day when the target has already passed. -/
def calculateSleepSeconds (clock : Option TmInfo) : Int :=
  match clock with
  | none => 86400
  | some timeinfo =>
    let currentSeconds : Int :=
      (timeinfo.tm_hour : Int) * 3600 + (timeinfo.tm_min : Int) * 60 +
        (timeinfo.tm_sec : Int)
    let targetSeconds : Int := WAKE_HOUR * 3600 + WAKE_MINUTE * 60
    let sleepSeconds := targetSeconds - currentSeconds
    if sleepSeconds ≤ 0 then sleepSeconds + 86400 else sleepSeconds

/-! ## Cycle controller (`setup` / `goToSleep`) -/

/-- The observable stage events of one cycle: stage entries, the single
render (success or error layout), and the handover to the low-power timer. -/
inductive Event where
  | connectAttempt : Event
  | fetchAttempt : Event
  | renderSuccess : Event
  | renderError (msg : String) : Event
  | schedule (secs : Int) : Event
  | sleep (secs : Int) : Event
deriving DecidableEq, BEq

/-- Is the event one of the two render events? -/
def Event.isRender : Event → Bool
  | .renderSuccess => true
  | .renderError _ => true
  | _ => false

/-- Lines 641-655, `goToSleep`: sync the clock, compute the sleep duration,
and hand it to the deep-sleep timer.  The computed duration reaches
`esp_sleep_enable_timer_wakeup` unconditionally. -/
def goToSleep (clock : Option TmInfo) : List Event :=
  let sleepSeconds := calculateSleepSeconds clock
  [.schedule sleepSeconds, .sleep sleepSeconds]

/-- The cycle's environment: outcomes of the external collaborators during
one wake (WiFi link, HTTP transport, the ArduinoJson parser, clock). -/
structure Env where
  wifiConnects : Bool
  httpCode : Int
  body : String
  parse : String → Option Json
  clock : Option TmInfo

/-- Lines 657-672, `setup`: one full cycle from a fresh (default-initialized)
global state.  `if (connectWiFi() && fetchPrayerTimes()) displayPrayerTimes();
else displayError();` followed unconditionally by `goToSleep()`.  The `&&`
short-circuits: a failed connect never runs the fetch stage.  Returns the
success flag, the final global state, and the stage-event trace. -/
def runCycle (env : Env) : Bool × Globals × List Event :=
  let g0 : Globals := {}
  let c := connectWiFi env.wifiConnects g0
  if c.1 then
    let f := fetchPrayerTimes env.parse env.httpCode env.body c.2
    if f.1 then
      (true, f.2, [.connectAttempt, .fetchAttempt, .renderSuccess] ++
        goToSleep env.clock)
    else
      (false, f.2, [.connectAttempt, .fetchAttempt,
        .renderError f.2.errorMsg] ++ goToSleep env.clock)
  else
    (false, c.2, [.connectAttempt, .renderError c.2.errorMsg] ++
      goToSleep env.clock)

/-! ## Arduino String operations used by the icon classifiers -/

/-- Substring occurrence on character lists (the recursion behind
`String::indexOf(pat) >= 0`). -/
def containsSeq (pat : List Char) : List Char → Bool
  | [] => pat.isEmpty
  | c :: rest => pat.isPrefixOf (c :: rest) || containsSeq pat rest

/-- `condition.indexOf(pat) >= 0`: does `pat` occur in `s`? -/
def strContains (s pat : String) : Bool :=
  containsSeq pat.toList s.toList

/-- `iconCode.startsWith(pre)`. -/
def strStartsWith (s pre : String) : Bool :=
  pre.toList.isPrefixOf s.toList

/-- `condition.toLowerCase()` (ASCII lowercasing, as on Arduino). -/
def lowerStr (s : String) : String :=
  String.mk (s.toList.map Char.toLower)

/-! ## Icon classification

`drawWeatherIcon` (lines 309-430) and `drawSmallWeatherIcon` (lines 226-306)
are if/else-if chains: each selects the first matching pictogram category and
then draws it.  The chains are factored here into a category function (the
branch conditions, in source order) consumed by the drawing function. -/

/-- The pictogram categories of `drawWeatherIcon` (OpenWeatherMap
numeric-prefix icon codes), plus the fall-through question mark. -/
inductive IconCat where
  | clear | fewClouds | clouds | rain | thunder | snow | mist | unknown
deriving DecidableEq

/-- The branch conditions of `drawWeatherIcon`, in source order: the first
matching prefix wins; no match falls through to the question mark. -/
def iconCategory (iconCode : String) : IconCat :=
  if strStartsWith iconCode "01" then .clear
  else if strStartsWith iconCode "02" then .fewClouds
  else if strStartsWith iconCode "03" || strStartsWith iconCode "04" then
    .clouds
  else if strStartsWith iconCode "09" || strStartsWith iconCode "10" then
    .rain
  else if strStartsWith iconCode "11" then .thunder
  else if strStartsWith iconCode "13" then .snow
  else if strStartsWith iconCode "50" then .mist
  else .unknown

/-- The pictogram categories of `drawSmallWeatherIcon` (free-text condition
keywords), plus the fall-through question mark. -/
inductive CondCat where
  | sunny | cloudy | rainy | snowy | stormy | misty | unknown
deriving DecidableEq

/-- The branch conditions of `drawSmallWeatherIcon`, in source order, applied
to the lowercased condition text: the first matching keyword set wins; no
match falls through to the question mark. -/
def condCategory (condition : String) : CondCat :=
  let c := lowerStr condition
  if strContains c "clear" || strContains c "sun" then .sunny
  else if strContains c "cloud" then .cloudy
  else if strContains c "rain" || strContains c "drizzle" then .rainy
  else if strContains c "snow" then .snowy
  else if strContains c "thunder" || strContains c "storm" then .stormy
  else if strContains c "mist" || strContains c "fog" ||
      strContains c "haze" then .misty
  else .unknown

/-! ## Display collaborator: draw commands

Rendering is modelled as the sequence of calls the render routines issue to
the display / font collaborators.  Floating-point trigonometry (`cos`/`sin`
over angles that are always integer multiples of π/12, truncated to `int`)
and the u8g2 text-width measurement are deterministic external functions,
passed in as parameters. -/

/-- RGB565 color constants from GxEPD2. -/
def GxEPD_BLACK : Nat := 0x0000

/-- See `GxEPD_BLACK`. -/
def GxEPD_WHITE : Nat := 0xFFFF

/-- See `GxEPD_BLACK`. -/
def GxEPD_ORANGE : Nat := 0xFD20

/-- See `GxEPD_BLACK`. -/
def GxEPD_YELLOW : Nat := 0xFFE0

/-- See `GxEPD_BLACK`. -/
def GxEPD_BLUE : Nat := 0x001F

/-- The u8g2 fonts selected by the render routines. -/
inductive FontId where
  | helvR24 | helvR18 | helvR14 | helvR12 | helvB24 | helvB18
deriving DecidableEq

/-- One call to the display or font collaborator. -/
inductive Cmd where
  | setRotation (n : Nat) : Cmd
  | setFullWindow : Cmd
  | firstPage : Cmd
  | fillScreen (color : Nat) : Cmd
  | u8g2Begin : Cmd
  | setForegroundColor (color : Nat) : Cmd
  | setBackgroundColor (color : Nat) : Cmd
  | setFont (f : FontId) : Cmd
  | setCursor (x y : Int) : Cmd
  | printText (s : String) : Cmd
  | drawPixel (x y : Int) (color : Nat) : Cmd
  | drawLine (x1 y1 x2 y2 : Int) (color : Nat) : Cmd
  | drawCircle (x y r : Int) (color : Nat) : Cmd
  | fillCircle (x y r : Int) (color : Nat) : Cmd
  | fillTriangle (x1 y1 x2 y2 x3 y3 : Int) (color : Nat) : Cmd
  | drawRoundRect (x y w h r : Int) (color : Nat) : Cmd
deriving DecidableEq

/-- The libm trigonometry as the render routines use it: every angle in the
source is an integer multiple of π/12, and every use is of the shape
`(int)(x + cos(angle) * r)` (or `sin`).  `addCosMul x k r` models the C
int conversion of `x + cos(k·π/12) * r`; likewise `addSinMul` for `sin`.
Any fixed such function represents one deterministic libm. -/
structure FloatMath where
  addCosMul : Int → Int → Int → Int
  addSinMul : Int → Int → Int → Int

/-- The integers from `lo` to `hi` inclusive (a C `for` loop's index range). -/
def intRangeIncl (lo hi : Int) : List Int :=
  (List.range (hi + 1 - lo).toNat).map (fun i => lo + (i : Int))

/-- Lines 198-212, `fillCircleDithered`: checkerboard-dithered disc, one
`drawPixel` per black pixel. -/
def fillCircleDithered (cx cy radius : Int) : List Cmd :=
  (intRangeIncl (cy - radius) (cy + radius)).flatMap (fun py =>
    (intRangeIncl (cx - radius) (cx + radius)).flatMap (fun px =>
      let dx := px - cx
      let dy := py - cy
      if dx * dx + dy * dy ≤ radius * radius then
        if (px + py) % 2 = 0 then [.drawPixel px py GxEPD_BLACK] else []
      else []))

/-- Lines 215-223, `fillRectDithered`. -/
def fillRectDithered (x y w h : Int) : List Cmd :=
  (intRangeIncl y (y + h - 1)).flatMap (fun py =>
    (intRangeIncl x (x + w - 1)).flatMap (fun px =>
      if (px + py) % 2 = 0 then [.drawPixel px py GxEPD_BLACK] else []))

/-- Lines 226-306, `drawSmallWeatherIcon`: classify the condition text
(first matching branch in source order, see `condCategory`) and emit that
branch's drawing calls.  Angles: `i*PI/4` is `k = 3i` twelfths of π,
`i*PI/3` is `k = 4i`. -/
def drawSmallWeatherIcon (M : FloatMath) (x y : Int) (condition : String) :
    List Cmd :=
  match condCategory condition with
  | .sunny =>
    [.fillCircle x y 14 GxEPD_ORANGE] ++
    (List.range 8).flatMap (fun i =>
      let k : Int := 3 * (i : Int)
      let x1 := M.addCosMul x k 18
      let y1 := M.addSinMul y k 18
      let x2 := M.addCosMul x k 26
      let y2 := M.addSinMul y k 26
      [.drawLine x1 y1 x2 y2 GxEPD_ORANGE,
       .drawLine (x1 + 1) y1 (x2 + 1) y2 GxEPD_ORANGE])
  | .cloudy =>
    fillCircleDithered (x - 8) y 12 ++
    fillCircleDithered (x + 8) (y + 2) 10 ++
    fillCircleDithered x (y - 6) 10 ++
    fillRectDithered (x - 18) y 36 14
  | .rainy =>
    fillCircleDithered (x - 6) (y - 8) 10 ++
    fillCircleDithered (x + 6) (y - 6) 8 ++
    fillRectDithered (x - 16) (y - 8) 32 10 ++
    (List.range 3).flatMap (fun i =>
      let dx := x - 10 + (i : Int) * 10
      [.fillCircle dx (y + 10) 2 GxEPD_BLUE,
       .fillCircle (dx - 1) (y + 14) 2 GxEPD_BLUE])
  | .snowy =>
    (List.range 3).flatMap (fun i =>
      let k : Int := 4 * (i : Int)
      let x1 := M.addCosMul x k (-16)
      let y1 := M.addSinMul y k (-16)
      let x2 := M.addCosMul x k 16
      let y2 := M.addSinMul y k 16
      [.drawLine x1 y1 x2 y2 GxEPD_BLUE,
       .drawLine (x1 + 1) y1 (x2 + 1) y2 GxEPD_BLUE]) ++
    [.fillCircle x y 5 GxEPD_BLUE]
  | .stormy =>
    fillCircleDithered (x - 6) (y - 10) 10 ++
    fillCircleDithered (x + 6) (y - 8) 8 ++
    fillRectDithered (x - 16) (y - 10) 32 10 ++
    [.fillTriangle (x - 4) (y + 2) (x + 6) (y + 2) (x + 2) (y + 12)
      GxEPD_YELLOW,
     .fillTriangle x (y + 10) (x + 8) (y + 10) (x - 4) (y + 22) GxEPD_YELLOW]
  | .misty =>
    (List.range 4).flatMap (fun i =>
      let ly := y - 10 + (i : Int) * 7
      [.drawLine (x - 16) ly (x + 16) ly GxEPD_BLACK,
       .drawLine (x - 16) (ly + 1) (x + 16) (ly + 1) GxEPD_BLACK])
  | .unknown =>
    [.drawCircle x y 12 GxEPD_BLACK, .drawCircle x y 11 GxEPD_BLACK]

/-- Lines 309-430, `drawWeatherIcon`: classify the icon code (first matching
numeric prefix in source order, see `iconCategory`) and emit that branch's
drawing calls.  `size = 120`. -/
def drawWeatherIcon (M : FloatMath) (x y : Int) (iconCode : String) :
    List Cmd :=
  let size : Int := 120
  match iconCategory iconCode with
  | .clear =>
    [.fillCircle x y (size / 3) GxEPD_ORANGE] ++
    (List.range 8).flatMap (fun i =>
      let k : Int := 3 * (i : Int)
      let x1 := M.addCosMul x k (size / 3 + 8)
      let y1 := M.addSinMul y k (size / 3 + 8)
      let x2 := M.addCosMul x k (size / 2 + 5)
      let y2 := M.addSinMul y k (size / 2 + 5)
      [.drawLine x1 y1 x2 y2 GxEPD_ORANGE,
       .drawLine (x1 + 1) y1 (x2 + 1) y2 GxEPD_ORANGE,
       .drawLine x1 (y1 + 1) x2 (y2 + 1) GxEPD_ORANGE,
       .drawLine (x1 + 1) (y1 + 1) (x2 + 1) (y2 + 1) GxEPD_ORANGE])
  | .fewClouds =>
    [.fillCircle (x + 35) (y - 25) 22 GxEPD_ORANGE] ++
    (List.range 8).flatMap (fun i =>
      let k : Int := 3 * (i : Int)
      let x1 := M.addCosMul (x + 35) k 26
      let y1 := M.addSinMul (y - 25) k 26
      let x2 := M.addCosMul (x + 35) k 38
      let y2 := M.addSinMul (y - 25) k 38
      [.drawLine x1 y1 x2 y2 GxEPD_ORANGE,
       .drawLine (x1 + 1) y1 (x2 + 1) y2 GxEPD_ORANGE]) ++
    fillCircleDithered (x - 20) (y + 10) 32 ++
    fillCircleDithered (x + 25) (y + 15) 26 ++
    fillCircleDithered (x + 5) (y - 8) 28 ++
    fillRectDithered (x - 52) (y + 10) 104 35
  | .clouds =>
    fillCircleDithered (x - 20) (y + 10) 36 ++
    fillCircleDithered (x + 30) (y + 10) 28 ++
    fillCircleDithered (x + 10) (y - 16) 32 ++
    fillRectDithered (x - 56) (y + 10) 116 40
  | .rain =>
    fillCircleDithered (x - 20) (y - 20) 28 ++
    fillCircleDithered (x + 20) (y - 20) 24 ++
    fillCircleDithered x (y - 36) 24 ++
    fillRectDithered (x - 48) (y - 20) 96 28 ++
    (List.range 4).flatMap (fun i =>
      let dx := x - 30 + (i : Int) * 20
      [.drawLine dx (y + 20) (dx - 10) (y + 50) GxEPD_BLUE,
       .drawLine (dx + 1) (y + 20) (dx - 9) (y + 50) GxEPD_BLUE,
       .drawLine (dx + 2) (y + 20) (dx - 8) (y + 50) GxEPD_BLUE,
       .drawLine (dx + 3) (y + 20) (dx - 7) (y + 50) GxEPD_BLUE])
  | .thunder =>
    fillCircleDithered (x - 20) (y - 20) 28 ++
    fillCircleDithered (x + 20) (y - 20) 24 ++
    fillCircleDithered x (y - 36) 24 ++
    fillRectDithered (x - 48) (y - 20) 96 28 ++
    [.fillTriangle (x - 5) (y + 10) (x + 18) (y + 10) (x + 8) (y + 40)
      GxEPD_YELLOW,
     .fillTriangle (x + 5) (y + 32) (x + 28) (y + 32) (x - 8) (y + 70)
      GxEPD_YELLOW]
  | .snow =>
    (List.range 3).flatMap (fun i =>
      let k : Int := 4 * (i : Int)
      [.drawLine (M.addCosMul x k (-50)) (M.addSinMul y k (-50))
         (M.addCosMul x k 50) (M.addSinMul y k 50) GxEPD_BLUE,
       .drawLine (M.addCosMul (x + 1) k (-50)) (M.addSinMul y k (-50))
         (M.addCosMul (x + 1) k 50) (M.addSinMul y k 50) GxEPD_BLUE,
       .drawLine (M.addCosMul (x + 2) k (-50)) (M.addSinMul y k (-50))
         (M.addCosMul (x + 2) k 50) (M.addSinMul y k 50) GxEPD_BLUE]) ++
    (List.range 6).flatMap (fun i =>
      let k : Int := 4 * (i : Int)
      let mx := M.addCosMul x k 30
      let my := M.addSinMul y k 30
      [.drawLine mx my (M.addCosMul mx (k + 2) 15) (M.addSinMul my (k + 2) 15)
         GxEPD_BLUE,
       .drawLine mx my (M.addCosMul mx (k - 2) 15) (M.addSinMul my (k - 2) 15)
         GxEPD_BLUE]) ++
    [.fillCircle x y 8 GxEPD_BLUE]
  | .mist =>
    (List.range 5).flatMap (fun i =>
      let ly := y - 30 + (i : Int) * 15
      [.drawLine (x - 50) ly (x + 50) ly GxEPD_BLACK,
       .drawLine (x - 50) (ly + 1) (x + 50) (ly + 1) GxEPD_BLACK,
       .drawLine (x - 50) (ly + 2) (x + 50) (ly + 2) GxEPD_BLACK])
  | .unknown =>
    [.drawCircle x y (size / 2) GxEPD_BLACK,
     .setFont .helvB24,
     .setCursor (x - 12) (y + 12),
     .printText "?"]

/-! ## Render routines (`displayPrayerTimes`, lines 432-573; `displayError`,
lines 575-597) -/

/-- `s.substring(a, b)` on an Arduino `String`: the characters from index
`a` (inclusive) to `b` (exclusive). -/
def ardSubstring (s : String) (a b : Nat) : String :=
  String.mk ((s.toList.drop a).take (b - a))

/-- The `do { body } while (display.nextPage());` paging loop: the body runs
once per page (the page count is decided by the display collaborator). -/
def repeatCmds : Nat → List Cmd → List Cmd
  | 0, _ => []
  | n + 1, body => body ++ repeatCmds n body

/-- One page of the success layout: the body of the `do`/`while` in
`displayPrayerTimes` (lines 438-568), reading the decoded globals `g`.
`w` is the u8g2 `getUTF8Width` measurement (an unsigned width). -/
def displayPrayerTimesPage (M : FloatMath) (w : String → Nat) (g : Globals) :
    List Cmd :=
  let sectionX : Int := 30
  let sectionWidth : Int := 340
  let startY : Int := 35
  let listStartY : Int := startY + 75
  let rowHeight : Int := 60
  let prayerNames : List String :=
    ["Fajr", "Sunrise", "Dhuhr", "Asr", "Maghrib", "Isha"]
  let prayerTimesArr : List String :=
    [g.prayerTimes.fajr, g.prayerTimes.shuruq, g.prayerTimes.dhuhr,
     g.prayerTimes.asr, g.prayerTimes.maghrib, g.prayerTimes.isha]
  let weatherStartY : Int := 50
  let weatherCenterX : Int := 595
  let forecastY : Int := weatherStartY + 200
  let boxWidth : Int := 115
  let boxHeight : Int := 130
  let boxSpacing : Int := 8
  let totalWidth : Int := 3 * boxWidth + 2 * boxSpacing
  let startX : Int := weatherCenterX - totalWidth / 2
  let tempStr : String := toString g.weatherData.temperature ++ " C"
  let tempHalfWidth : Int := ((w tempStr / 2 : Nat) : Int)
  let condHalfWidth : Int := ((w g.weatherData.condition / 2 : Nat) : Int)
  [.fillScreen GxEPD_WHITE, .u8g2Begin,
   .setForegroundColor GxEPD_BLACK, .setBackgroundColor GxEPD_WHITE,
   .setFont .helvR24, .setCursor sectionX (startY + 28),
   .printText "Prayer Times"] ++
  (if g.prayerTimes.location.length > 0 then
    [.setFont .helvR12, .setCursor sectionX (startY + 48),
     .printText g.prayerTimes.location]
  else []) ++
  (List.range 6).flatMap (fun i =>
    let rowY := listStartY + (i : Int) * rowHeight
    let rowCenterY := rowY + rowHeight / 2 - 4
    let t := prayerTimesArr.getD i ""
    (if i > 0 then
      [.drawLine sectionX (rowY - 8) (sectionX + sectionWidth) (rowY - 8)
        GxEPD_BLACK]
    else []) ++
    [.setFont .helvR18, .setCursor sectionX (rowCenterY + 7),
     .printText (prayerNames.getD i ""),
     .setFont .helvB24,
     .setCursor (sectionX + sectionWidth - ((w t : Nat) : Int))
       (rowCenterY + 10),
     .printText t]) ++
  [.drawLine 385 (startY + 20) 385 450 GxEPD_BLACK] ++
  drawWeatherIcon M weatherCenterX (weatherStartY + 60) g.weatherData.icon ++
  [.setFont .helvB24,
   .setCursor (weatherCenterX - tempHalfWidth) (weatherStartY + 145),
   .printText tempStr,
   .drawCircle (weatherCenterX - tempHalfWidth + 58) (weatherStartY + 117) 5
     GxEPD_BLACK,
   .setFont .helvR14,
   .setCursor (weatherCenterX - condHalfWidth) (weatherStartY + 175),
   .printText g.weatherData.condition] ++
  (List.range 3).flatMap (fun i =>
    let boxX := startX + (i : Int) * (boxWidth + boxSpacing)
    let boxCenterX := boxX + boxWidth / 2
    let day := g.forecast.getD i ({} : ForecastDay)
    let dayLabel :=
      if day.date.length ≥ 10 then
        ardSubstring day.date 8 10 ++ "." ++ ardSubstring day.date 5 7
      else ""
    let temps := toString day.high ++ " / " ++ toString day.low
    [.drawRoundRect boxX forecastY boxWidth boxHeight 10 GxEPD_BLACK,
     .drawRoundRect (boxX + 1) (forecastY + 1) (boxWidth - 2) (boxHeight - 2)
       9 GxEPD_BLACK,
     .setFont .helvB18,
     .setCursor (boxCenterX - ((w dayLabel / 2 : Nat) : Int)) (forecastY + 26),
     .printText dayLabel] ++
    drawSmallWeatherIcon M boxCenterX (forecastY + 65) day.condition ++
    [.setFont .helvB18,
     .setCursor (boxCenterX - ((w temps / 2 : Nat) : Int)) (forecastY + 118),
     .printText temps])

/-- Lines 432-573, `displayPrayerTimes`: full-window paged refresh; the page
body (which only reads the globals) repeats once per page.  The routine
assigns no global, so it returns the state unchanged together with the calls
it issued. -/
def displayPrayerTimes (M : FloatMath) (w : String → Nat) (pages : Nat)
    (g : Globals) : Globals × List Cmd :=
  (g, [.setRotation 0, .setFullWindow, .firstPage] ++
    repeatCmds pages (displayPrayerTimesPage M w g))

/-- One page of the error layout: the body of the `do`/`while` in
`displayError` (lines 580-596). -/
def displayErrorPage (g : Globals) : List Cmd :=
  [.fillScreen GxEPD_WHITE, .u8g2Begin,
   .setForegroundColor GxEPD_BLACK, .setBackgroundColor GxEPD_WHITE,
   .setFont .helvB24, .setCursor 60 200, .printText "Error",
   .setFont .helvR18, .setCursor 60 260, .printText g.errorMsg]

/-- Lines 575-597, `displayError`: like `displayPrayerTimes`, a paged
full-window refresh that reads only `errorMsg` and assigns no global. -/
def displayError (pages : Nat) (g : Globals) : Globals × List Cmd :=
  (g, [.setRotation 0, .setFullWindow, .firstPage] ++
    repeatCmds pages (displayErrorPage g))

/-! ## Specification helpers and sample inputs -/

/-- The default-on-absence policy for a string field: a present well-typed
field takes its input value, anything else resolves to the sentinel. -/
def readsStrWithDefault (v : Json) (dflt out : String) : Prop :=
  match v with
  | .str s => out = s
  | _ => out = dflt

/-- The default-on-absence policy for an integer field. -/
def readsIntWithDefault (v : Json) (dflt out : Int) : Prop :=
  match v with
  | .jint n => out = n
  | _ => out = dflt

/-- The default-on-absence policy for a float field (integers convert). -/
def readsFloatWithDefault (v : Json) (dflt out : Rat) : Prop :=
  match v with
  | .jint n => out = (n : Rat)
  | .jfloat q => out = q
  | _ => out = dflt

/-- Sample payload: prayer section with four of six times present (and one
of the wrong type), weather current with a wrong-typed temperature, and five
forecast entries. -/
def sampleDoc : Json :=
  Json.obj
    [("prayer_times", Json.obj
        [("fajr", .str "05:12"), ("dhuhr", .str "12:34"),
         ("asr", .str "15:45"), ("maghrib", .str "18:02"),
         ("isha", .jint 7)]),
     ("location", .str "Berlin"),
     ("weather", Json.obj
        [("current", Json.obj
            [("temperature", .str "warm"), ("condition", .str "Clouds"),
             ("wind_speed", .jfloat (7/2)), ("icon", .str "04d")]),
         ("forecast", Json.arr
            [Json.obj [("date", .str "2026-10-12"), ("high", .jint 14),
                       ("low", .jint 7), ("condition", .str "Rain")],
             Json.obj [("date", .str "2026-10-13"), ("high", .jint 12),
                       ("low", .jint 6), ("condition", .str "Clouds")],
             Json.obj [("date", .str "2026-10-14"), ("high", .jint 11),
                       ("low", .jint 5), ("condition", .str "Clear")],
             Json.obj [("date", .str "2026-10-15"), ("high", .jint 10),
                       ("low", .jint 4), ("condition", .str "Snow")],
             Json.obj [("date", .str "2026-10-16"), ("high", .jint 9),
                       ("low", .jint 3), ("condition", .str "Mist")]])])]

/-- The forecast list of `sampleDoc` (five entries). -/
def sampleForecast : List Json :=
  [Json.obj [("date", .str "2026-10-12"), ("high", .jint 14),
             ("low", .jint 7), ("condition", .str "Rain")],
   Json.obj [("date", .str "2026-10-13"), ("high", .jint 12),
             ("low", .jint 6), ("condition", .str "Clouds")],
   Json.obj [("date", .str "2026-10-14"), ("high", .jint 11),
             ("low", .jint 5), ("condition", .str "Clear")],
   Json.obj [("date", .str "2026-10-15"), ("high", .jint 10),
             ("low", .jint 4), ("condition", .str "Snow")],
   Json.obj [("date", .str "2026-10-16"), ("high", .jint 9),
             ("low", .jint 3), ("condition", .str "Mist")]]

/-- Sample cycle environment: WiFi up, HTTP 404, parser never consulted. -/
def env404 : Env :=
  { wifiConnects := true, httpCode := 404, body := "",
    parse := fun _ => none, clock := none }

/-- Sample cycle environment: WiFi down. -/
def envNoWifi : Env :=
  { wifiConnects := false, httpCode := 200, body := "",
    parse := fun _ => none, clock := some ⟨4, 30, 0⟩ }

/-! ## Theorems -/

/-- C1: for every valid clock reading, `calculateSleepSeconds` returns
target-seconds-of-day minus now-seconds-of-day when now is strictly before
the wake target, and that difference plus 86400 when now is at or after the
target; a failed clock reading returns exactly 86400; in every case the
result lies in (0, 86400]. -/
theorem calculateSleepSeconds_spec (t : TmInfo)
    (hh : t.tm_hour < 24) (hm : t.tm_min < 60) (hs : t.tm_sec < 60) :
    ((t.tm_hour : Int) * 3600 + (t.tm_min : Int) * 60 + (t.tm_sec : Int) <
        WAKE_HOUR * 3600 + WAKE_MINUTE * 60 →
      calculateSleepSeconds (some t) =
        (WAKE_HOUR * 3600 + WAKE_MINUTE * 60) -
          ((t.tm_hour : Int) * 3600 + (t.tm_min : Int) * 60 +
            (t.tm_sec : Int))) ∧
    (WAKE_HOUR * 3600 + WAKE_MINUTE * 60 ≤
        (t.tm_hour : Int) * 3600 + (t.tm_min : Int) * 60 + (t.tm_sec : Int) →
      calculateSleepSeconds (some t) =
        (WAKE_HOUR * 3600 + WAKE_MINUTE * 60) -
          ((t.tm_hour : Int) * 3600 + (t.tm_min : Int) * 60 +
            (t.tm_sec : Int)) + 86400) ∧
    calculateSleepSeconds none = 86400 ∧
    0 < calculateSleepSeconds (some t) ∧
    calculateSleepSeconds (some t) ≤ 86400 ∧
    0 < calculateSleepSeconds none ∧ calculateSleepSeconds none ≤ 86400 := by
  simp only [calculateSleepSeconds, WAKE_HOUR, WAKE_MINUTE]
  refine ⟨?_, ?_, by norm_num, ?_, ?_, by norm_num, by norm_num⟩ <;>
    split_ifs with h <;> omega

/-- Witness for `calculateSleepSeconds_spec` at the clock reading 03:30:00
(past the 00:10 wake target, so a full wrap to the next day). -/
theorem calculateSleepSeconds_spec_witness :
    (3 : Nat) < 24 ∧ (30 : Nat) < 60 ∧ (0 : Nat) < 60 ∧
    WAKE_HOUR * 3600 + WAKE_MINUTE * 60 ≤
      ((3 : Nat) : Int) * 3600 + ((30 : Nat) : Int) * 60 + ((0 : Nat) : Int) ∧
    calculateSleepSeconds (some ⟨3, 30, 0⟩) =
      (WAKE_HOUR * 3600 + WAKE_MINUTE * 60) -
        (((3 : Nat) : Int) * 3600 + ((30 : Nat) : Int) * 60 +
          ((0 : Nat) : Int)) + 86400 :=
  ⟨by decide, by decide, by decide, by decide,
    (calculateSleepSeconds_spec ⟨3, 30, 0⟩ (by decide) (by decide)
      (by decide)).2.1 (by decide)⟩

/-- Helper: `getStrOr` implements the default-on-absence policy. -/
theorem readsStr_getStrOr (v : Json) (dflt : String) :
    readsStrWithDefault v dflt (getStrOr v dflt) := by
  cases v <;> simp [readsStrWithDefault, getStrOr]

/-- Helper: `getIntOr` implements the default-on-absence policy. -/
theorem readsInt_getIntOr (v : Json) (dflt : Int) :
    readsIntWithDefault v dflt (getIntOr v dflt) := by
  cases v <;> simp [readsIntWithDefault, getIntOr]

/-- Helper: `getFloatOr` implements the default-on-absence policy. -/
theorem readsFloat_getFloatOr (v : Json) (dflt : Rat) :
    readsFloatWithDefault v dflt (getFloatOr v dflt) := by
  cases v <;> simp [readsFloatWithDefault, getFloatOr]

/-- Helper: member access on a non-object yields the null variant. -/
theorem member_of_nonObj (j : Json) (k : String) (h : j.isObj = false) :
    j.member k = .null := by
  cases j <;> simp_all [Json.member, Json.isObj]

/-- C2: for every parsed document whose `prayer_times` member is absent or
not object-shaped, `decode` fails with the missing-section error, regardless
of what else is present; and this is the only failure: with that member
object-shaped, `decode` succeeds. -/
theorem decode_missing_section (doc : Json) :
    ((doc.member "prayer_times").isObj = false →
      decode doc = .error (.missingSection "prayer_times")) ∧
    ((doc.member "prayer_times").isObj = true →
      ∃ d, decode doc = .ok d) := by
  constructor <;> intro h <;> simp [decode, h]

/-- Witness for `decode_missing_section`: an object without the section
fails with the missing-section error; one with it decodes. -/
theorem decode_missing_section_witness :
    (((Json.obj []).member "prayer_times").isObj = false ∧
      decode (Json.obj []) = .error (.missingSection "prayer_times")) ∧
    (((Json.obj [("prayer_times", Json.obj [])]).member
        "prayer_times").isObj = true ∧
      ∃ d, decode (Json.obj [("prayer_times", Json.obj [])]) = .ok d) :=
  ⟨⟨rfl, (decode_missing_section (Json.obj [])).1 rfl⟩,
   ⟨rfl, (decode_missing_section
      (Json.obj [("prayer_times", Json.obj [])])).2 rfl⟩⟩

/-- C3: with the mandatory section present, `decode` succeeds, and every
individual field follows the default-on-absence policy: present well-typed
fields take their input values, absent or wrong-typed fields (including the
whole current-weather block when `weather`/`current` is absent or not an
object) resolve to their declared sentinels. -/
theorem decode_field_policy (doc : Json)
    (h : (doc.member "prayer_times").isObj = true) :
    ∃ d, decode doc = .ok d ∧
      readsStrWithDefault ((doc.member "prayer_times").member "fajr") "N/A"
        d.prayerTimes.fajr ∧
      readsStrWithDefault ((doc.member "prayer_times").member "shuruq") "N/A"
        d.prayerTimes.shuruq ∧
      readsStrWithDefault ((doc.member "prayer_times").member "dhuhr") "N/A"
        d.prayerTimes.dhuhr ∧
      readsStrWithDefault ((doc.member "prayer_times").member "asr") "N/A"
        d.prayerTimes.asr ∧
      readsStrWithDefault ((doc.member "prayer_times").member "maghrib") "N/A"
        d.prayerTimes.maghrib ∧
      readsStrWithDefault ((doc.member "prayer_times").member "isha") "N/A"
        d.prayerTimes.isha ∧
      readsStrWithDefault (doc.member "location") ""
        d.prayerTimes.location ∧
      ((((doc.member "weather").member "current").isObj = true →
        readsIntWithDefault
          (((doc.member "weather").member "current").member "temperature") 0
          d.weatherData.temperature ∧
        readsStrWithDefault
          (((doc.member "weather").member "current").member "condition") "N/A"
          d.weatherData.condition ∧
        readsFloatWithDefault
          (((doc.member "weather").member "current").member "wind_speed") 0
          d.weatherData.windSpeed ∧
        readsStrWithDefault
          (((doc.member "weather").member "current").member "icon") ""
          d.weatherData.icon) ∧
      (((doc.member "weather").member "current").isObj = false →
        d.weatherData = ({} : WeatherData))) := by
  refine ⟨{ prayerTimes := decodePrayerSection doc (doc.member "prayer_times")
            weatherData := (decodeWeatherSection (doc.member "weather")).1
            forecast := (decodeWeatherSection (doc.member "weather")).2 },
    by simp [decode, h],
    readsStr_getStrOr _ _, readsStr_getStrOr _ _, readsStr_getStrOr _ _,
    readsStr_getStrOr _ _, readsStr_getStrOr _ _, readsStr_getStrOr _ _,
    readsStr_getStrOr _ _, ?_, ?_⟩
  · intro hcur
    by_cases hw : (doc.member "weather").isObj = true
    · simp only [decodeWeatherSection, hw, if_true, hcur, decodeCurrent]
      exact ⟨readsInt_getIntOr _ _, readsStr_getStrOr _ _,
        readsFloat_getFloatOr _ _, readsStr_getStrOr _ _⟩
    · rw [member_of_nonObj _ _ (by simpa using hw)] at hcur
      simp [Json.isObj] at hcur
  · intro hcur
    by_cases hw : (doc.member "weather").isObj = true
    · simp [decodeWeatherSection, hw, hcur]
    · simp [decodeWeatherSection, hw]

/-- Witness for `decode_field_policy` at `sampleDoc`: the present fields keep
their payload values, the absent `shuruq` and the wrong-typed `isha` become
"N/A", and the wrong-typed temperature becomes 0. -/
theorem decode_field_policy_witness :
    ((sampleDoc.member "prayer_times").isObj = true) ∧
    ∃ d, decode sampleDoc = .ok d ∧
      d.prayerTimes.fajr = "05:12" ∧ d.prayerTimes.shuruq = "N/A" ∧
      d.prayerTimes.isha = "N/A" ∧ d.weatherData.temperature = 0 ∧
      d.weatherData.condition = "Clouds" := by
  refine ⟨rfl, ?_⟩
  obtain ⟨d, hd, hfajr, hshuruq, _, _, _, hisha, _, hcur, _⟩ :=
    decode_field_policy sampleDoc rfl
  obtain ⟨htemp, hcond, _, _⟩ := hcur rfl
  refine ⟨d, hd, ?_, ?_, ?_, ?_, ?_⟩
  · simpa [sampleDoc, Json.member, readsStrWithDefault] using hfajr
  · simpa [sampleDoc, Json.member, readsStrWithDefault] using hshuruq
  · simpa [sampleDoc, Json.member, readsStrWithDefault] using hisha
  · simpa [sampleDoc, Json.member, readsIntWithDefault] using htemp
  · simpa [sampleDoc, Json.member, readsStrWithDefault] using hcond

/-- C4: when the forecast list has at least 3 entries, the decoded forecast
is exactly the first 3 entries in input order, decoding still succeeds, and
the decoded sequence length is 3 (the declared capacity) — also an upper
bound for every input, since the global array has 3 cells. -/
theorem decode_forecast_cap (doc : Json) (xs : List Json)
    (h : (doc.member "prayer_times").isObj = true)
    (hf : (doc.member "weather").member "forecast" = Json.arr xs)
    (hlen : 3 ≤ xs.length) :
    ∃ d, decode doc = .ok d ∧
      d.forecast = (xs.take 3).map decodeDay ∧
      d.forecast.length = 3 := by
  have hw : (doc.member "weather").isObj = true := by
    by_contra hw
    rw [member_of_nonObj _ _ (by simpa using hw)] at hf
    exact Json.noConfusion hf
  refine ⟨{ prayerTimes := decodePrayerSection doc (doc.member "prayer_times")
            weatherData := (decodeWeatherSection (doc.member "weather")).1
            forecast := (decodeWeatherSection (doc.member "weather")).2 },
    by simp [decode, h], ?_, ?_⟩ <;>
    simp [decodeWeatherSection, hw, hf, decodeForecastList,
      Nat.sub_eq_zero_of_le (min_le_right 3 xs.length), min_eq_left hlen,
      List.length_take, min_eq_left, hlen]

/-- Witness for `decode_forecast_cap` at `sampleDoc` (five forecast entries,
exactly the first three kept). -/
theorem decode_forecast_cap_witness :
    ((sampleDoc.member "prayer_times").isObj = true ∧
      (sampleDoc.member "weather").member "forecast" =
        Json.arr sampleForecast ∧
      3 ≤ sampleForecast.length) ∧
    ∃ d, decode sampleDoc = .ok d ∧
      d.forecast = (sampleForecast.take 3).map decodeDay ∧
      d.forecast.length = 3 :=
  ⟨⟨rfl, rfl, by decide⟩,
    decode_forecast_cap sampleDoc sampleForecast rfl rfl (by decide)⟩

/-- C5 counterexample: a read timeout (`http.GET()` returning the library
code -11) does not produce a failure kind distinct from the status errors —
it takes the very same `"HTTP " + String(code)` exit, i.e. a status-form
error carrying the negative library code. -/
theorem acquire_no_distinct_transport_error :
    acquirePhase HTTPC_ERROR_READ_TIMEOUT "" = .error "HTTP -11" ∧
    (∃ code : Int,
      acquirePhase HTTPC_ERROR_READ_TIMEOUT "" =
        .error ("HTTP " ++ toString code)) ∧
    acquirePhase 404 "" = .error "HTTP 404" :=
  ⟨rfl, ⟨-11, rfl⟩, rfl⟩

/-- C5 amended: acquisition reports every failure through the single
`"HTTP " + String(code)` error channel — non-success statuses with their
status code, timeouts and link failures with the library's negative code —
and only code 200 succeeds, returning the full body without validating its
content. -/
theorem acquirePhase_single_error_channel (httpCode : Int) (body : String) :
    (httpCode ≠ 200 → acquirePhase httpCode body =
      .error ("HTTP " ++ toString httpCode)) ∧
    (httpCode = 200 → acquirePhase httpCode body = .ok body) := by
  constructor <;> intro h <;> simp [acquirePhase, HTTP_CODE_OK, h]

/-- Witness for `acquirePhase_single_error_channel` at a 404 status and at
a successful 200 fetch. -/
theorem acquirePhase_single_error_channel_witness :
    ((404 : Int) ≠ 200 ∧
      acquirePhase 404 "" = .error ("HTTP " ++ toString (404 : Int))) ∧
    ((200 : Int) = 200 ∧ acquirePhase 200 "body" = .ok "body") :=
  ⟨⟨by decide, (acquirePhase_single_error_channel 404 "").1 (by decide)⟩,
   ⟨rfl, (acquirePhase_single_error_channel 200 "body").2 rfl⟩⟩

/-- C6: when WiFi connection fails, the cycle renders the error layout with
the network-unavailable reason ("WiFi failed") and goes straight to
scheduling and sleep; the fetch stage (and with it decoding) never runs —
the trace contains no fetch event. -/
theorem connect_failure_skips_fetch (env : Env)
    (h : env.wifiConnects = false) :
    (runCycle env).2.2 =
      [.connectAttempt, .renderError "WiFi failed",
       .schedule (calculateSleepSeconds env.clock),
       .sleep (calculateSleepSeconds env.clock)] ∧
    (runCycle env).2.2.countP (fun e => decide (e = Event.fetchAttempt)) =
      0 ∧
    (runCycle env).1 = false := by
  simp [runCycle, connectWiFi, h, goToSleep, List.countP_cons]

/-- Witness for `connect_failure_skips_fetch` at the WiFi-down environment
`envNoWifi`. -/
theorem connect_failure_skips_fetch_witness :
    envNoWifi.wifiConnects = false ∧
    (runCycle envNoWifi).2.2 =
      [.connectAttempt, .renderError "WiFi failed",
       .schedule (calculateSleepSeconds envNoWifi.clock),
       .sleep (calculateSleepSeconds envNoWifi.clock)] ∧
    (runCycle envNoWifi).2.2.countP
      (fun e => decide (e = Event.fetchAttempt)) = 0 ∧
    (runCycle envNoWifi).1 = false :=
  ⟨rfl, connect_failure_skips_fetch envNoWifi rfl⟩

/-- Helper: the shape of `runCycle` when the WiFi link comes up. -/
theorem runCycle_wifi_true (env : Env) (hw : env.wifiConnects = true) :
    runCycle env =
      ((fetchPrayerTimes env.parse env.httpCode env.body ({} : Globals)).1,
       (fetchPrayerTimes env.parse env.httpCode env.body ({} : Globals)).2,
       [.connectAttempt, .fetchAttempt,
        if (fetchPrayerTimes env.parse env.httpCode env.body
            ({} : Globals)).1 = true then
          .renderSuccess
        else
          .renderError (fetchPrayerTimes env.parse env.httpCode env.body
            ({} : Globals)).2.errorMsg] ++ goToSleep env.clock) := by
  unfold runCycle
  simp only [connectWiFi, hw, if_true]
  rcases hfp : fetchPrayerTimes env.parse env.httpCode env.body
    ({} : Globals) with ⟨b, g⟩
  cases b <;> simp

/-- C7: every cycle, whatever the collaborator outcomes, performs exactly one
render event (success or error layout) and then reaches scheduling and
sleeping, handing the computed sleep duration to the low-power timer. -/
theorem cycle_always_renders_once_then_sleeps (env : Env) :
    ∃ pre, (runCycle env).2.2 =
        pre ++ [.schedule (calculateSleepSeconds env.clock),
                .sleep (calculateSleepSeconds env.clock)] ∧
      (runCycle env).2.2.countP (fun e => e.isRender) = 1 := by
  by_cases hw : env.wifiConnects = true
  · rw [runCycle_wifi_true env hw]
    by_cases hf :
      (fetchPrayerTimes env.parse env.httpCode env.body ({} : Globals)).1 =
        true
    · exact ⟨[.connectAttempt, .fetchAttempt, .renderSuccess],
        by simp [hf, goToSleep, List.countP_cons, Event.isRender]⟩
    · refine ⟨[.connectAttempt, .fetchAttempt,
        .renderError (fetchPrayerTimes env.parse env.httpCode env.body
          ({} : Globals)).2.errorMsg], ?_⟩
      simp [hf, goToSleep, List.countP_cons, Event.isRender]
  · exact ⟨[.connectAttempt, .renderError "WiFi failed"],
      by simp [runCycle, connectWiFi, hw, goToSleep,
        List.countP_cons, Event.isRender]⟩

/-- Helper: every failure exit of `fetchPrayerTimes` happens before the
first assignment to the data globals, so they are left untouched. -/
theorem fetchPrayerTimes_fail_preserves (parse : String → Option Json)
    (httpCode : Int) (body : String) (g : Globals)
    (h : (fetchPrayerTimes parse httpCode body g).1 = false) :
    (fetchPrayerTimes parse httpCode body g).2.prayerTimes =
      g.prayerTimes ∧
    (fetchPrayerTimes parse httpCode body g).2.weatherData =
      g.weatherData ∧
    (fetchPrayerTimes parse httpCode body g).2.forecast = g.forecast := by
  rcases hA : acquirePhase httpCode body with e | payload
  · simp [fetchPrayerTimes, hA]
  · rcases hP : parse payload with _ | doc
    · simp [fetchPrayerTimes, hA, hP]
    · rcases hD : decode doc with e | d
      · simp [fetchPrayerTimes, hA, hP, hD]
      · simp [fetchPrayerTimes, hA, hP, hD] at h

/-- C10: whenever the cycle fails (WiFi failure, non-OK HTTP code, JSON
syntax error, or missing `prayer_times` section), the data globals still
hold exactly their construction-time sentinel defaults: the error layout
never coexists with partially decoded data. -/
theorem failure_leaves_sentinel_defaults (env : Env)
    (h : (runCycle env).1 = false) :
    (runCycle env).2.1.prayerTimes = ({} : PrayerTimes) ∧
    (runCycle env).2.1.weatherData = ({} : WeatherData) ∧
    (runCycle env).2.1.forecast =
      [({} : ForecastDay), ({} : ForecastDay), ({} : ForecastDay)] := by
  by_cases hw : env.wifiConnects = true
  · rw [runCycle_wifi_true env hw] at h ⊢
    exact fetchPrayerTimes_fail_preserves env.parse env.httpCode env.body
      ({} : Globals) h
  · simp [runCycle, connectWiFi, hw]

/-- Witness for `failure_leaves_sentinel_defaults` at the HTTP-404
environment `env404`. -/
theorem failure_leaves_sentinel_defaults_witness :
    (runCycle env404).1 = false ∧
    (runCycle env404).2.1.prayerTimes = ({} : PrayerTimes) ∧
    (runCycle env404).2.1.weatherData = ({} : WeatherData) ∧
    (runCycle env404).2.1.forecast =
      [({} : ForecastDay), ({} : ForecastDay), ({} : ForecastDay)] :=
  ⟨rfl, failure_leaves_sentinel_defaults env404 rfl⟩

/-- C8: both icon classifiers evaluate their checks in the fixed source
order, the first matching category wins (earlier checks override later ones),
and an input matching no check yields the unknown pictogram.
`iconCategory` is the numeric-prefix chain of `drawWeatherIcon`;
`condCategory` is the lowercased free-text keyword chain of
`drawSmallWeatherIcon`. -/
theorem icon_classification_priority (s : String) :
    (strStartsWith s "01" = true → iconCategory s = .clear) ∧
    (strStartsWith s "01" = false → strStartsWith s "02" = true →
      iconCategory s = .fewClouds) ∧
    (strStartsWith s "01" = false → strStartsWith s "02" = false →
      (strStartsWith s "03" || strStartsWith s "04") = true →
      iconCategory s = .clouds) ∧
    (strStartsWith s "01" = false → strStartsWith s "02" = false →
      (strStartsWith s "03" || strStartsWith s "04") = false →
      (strStartsWith s "09" || strStartsWith s "10") = true →
      iconCategory s = .rain) ∧
    (strStartsWith s "01" = false → strStartsWith s "02" = false →
      (strStartsWith s "03" || strStartsWith s "04") = false →
      (strStartsWith s "09" || strStartsWith s "10") = false →
      strStartsWith s "11" = true → iconCategory s = .thunder) ∧
    (strStartsWith s "01" = false → strStartsWith s "02" = false →
      (strStartsWith s "03" || strStartsWith s "04") = false →
      (strStartsWith s "09" || strStartsWith s "10") = false →
      strStartsWith s "11" = false → strStartsWith s "13" = true →
      iconCategory s = .snow) ∧
    (strStartsWith s "01" = false → strStartsWith s "02" = false →
      (strStartsWith s "03" || strStartsWith s "04") = false →
      (strStartsWith s "09" || strStartsWith s "10") = false →
      strStartsWith s "11" = false → strStartsWith s "13" = false →
      strStartsWith s "50" = true → iconCategory s = .mist) ∧
    (strStartsWith s "01" = false → strStartsWith s "02" = false →
      (strStartsWith s "03" || strStartsWith s "04") = false →
      (strStartsWith s "09" || strStartsWith s "10") = false →
      strStartsWith s "11" = false → strStartsWith s "13" = false →
      strStartsWith s "50" = false → iconCategory s = .unknown) ∧
    ((strContains (lowerStr s) "clear" ||
        strContains (lowerStr s) "sun") = true → condCategory s = .sunny) ∧
    ((strContains (lowerStr s) "clear" ||
        strContains (lowerStr s) "sun") = false →
      strContains (lowerStr s) "cloud" = true →
      condCategory s = .cloudy) ∧
    ((strContains (lowerStr s) "clear" ||
        strContains (lowerStr s) "sun") = false →
      strContains (lowerStr s) "cloud" = false →
      (strContains (lowerStr s) "rain" ||
        strContains (lowerStr s) "drizzle") = true →
      condCategory s = .rainy) ∧
    ((strContains (lowerStr s) "clear" ||
        strContains (lowerStr s) "sun") = false →
      strContains (lowerStr s) "cloud" = false →
      (strContains (lowerStr s) "rain" ||
        strContains (lowerStr s) "drizzle") = false →
      strContains (lowerStr s) "snow" = true →
      condCategory s = .snowy) ∧
    ((strContains (lowerStr s) "clear" ||
        strContains (lowerStr s) "sun") = false →
      strContains (lowerStr s) "cloud" = false →
      (strContains (lowerStr s) "rain" ||
        strContains (lowerStr s) "drizzle") = false →
      strContains (lowerStr s) "snow" = false →
      (strContains (lowerStr s) "thunder" ||
        strContains (lowerStr s) "storm") = true →
      condCategory s = .stormy) ∧
    ((strContains (lowerStr s) "clear" ||
        strContains (lowerStr s) "sun") = false →
      strContains (lowerStr s) "cloud" = false →
      (strContains (lowerStr s) "rain" ||
        strContains (lowerStr s) "drizzle") = false →
      strContains (lowerStr s) "snow" = false →
      (strContains (lowerStr s) "thunder" ||
        strContains (lowerStr s) "storm") = false →
      (strContains (lowerStr s) "mist" || strContains (lowerStr s) "fog" ||
        strContains (lowerStr s) "haze") = true →
      condCategory s = .misty) ∧
    ((strContains (lowerStr s) "clear" ||
        strContains (lowerStr s) "sun") = false →
      strContains (lowerStr s) "cloud" = false →
      (strContains (lowerStr s) "rain" ||
        strContains (lowerStr s) "drizzle") = false →
      strContains (lowerStr s) "snow" = false →
      (strContains (lowerStr s) "thunder" ||
        strContains (lowerStr s) "storm") = false →
      (strContains (lowerStr s) "mist" || strContains (lowerStr s) "fog" ||
        strContains (lowerStr s) "haze") = false →
      condCategory s = .unknown) := by
  refine ⟨?_, ?_, ?_, ?_, ?_, ?_, ?_, ?_, ?_, ?_, ?_, ?_, ?_, ?_, ?_⟩ <;>
    intros <;> simp_all [iconCategory, condCategory]

/-- Witness for `icon_classification_priority`: a clear-sky icon code, an
unrecognized icon code, a rain keyword, and an unrecognized keyword. -/
theorem icon_classification_priority_witness :
    (strStartsWith "01d" "01" = true ∧ iconCategory "01d" = .clear) ∧
    iconCategory "99x" = .unknown ∧
    condCategory "Heavy Rain" = .rainy ∧
    condCategory "???" = .unknown := by
  obtain ⟨hclear, -, -, -, -, -, -, -, -, -, -, -, -, -, -⟩ :=
    icon_classification_priority "01d"
  obtain ⟨-, -, -, -, -, -, -, hunk, -, -, -, -, -, -, -⟩ :=
    icon_classification_priority "99x"
  obtain ⟨-, -, -, -, -, -, -, -, -, -, hrain, -, -, -, -⟩ :=
    icon_classification_priority "Heavy Rain"
  obtain ⟨-, -, -, -, -, -, -, -, -, -, -, -, -, -, hcunk⟩ :=
    icon_classification_priority "???"
  exact ⟨⟨by decide, hclear (by decide)⟩,
    hunk (by decide) (by decide) (by decide) (by decide) (by decide)
      (by decide) (by decide),
    hrain (by decide) (by decide) (by decide),
    hcunk (by decide) (by decide) (by decide) (by decide) (by decide)
      (by decide)⟩

/-- C9: rendering is idempotent and mutation-free.  Both render routines
leave the decoded global state exactly as they found it (their statements
are display/font collaborator calls and local computation only), so a second
invocation with the same cycle outcome observes the same inputs and emits an
identical draw-command sequence. -/
theorem render_idempotent (M : FloatMath) (w : String → Nat) (pages : Nat)
    (g : Globals) :
    (displayPrayerTimes M w pages g).1 = g ∧
    displayPrayerTimes M w pages ((displayPrayerTimes M w pages g).1) =
      displayPrayerTimes M w pages g ∧
    (displayPrayerTimes M w pages g).2 =
      (displayPrayerTimes M w pages
        ((displayPrayerTimes M w pages g).1)).2 ∧
    (displayError pages g).1 = g ∧
    displayError pages ((displayError pages g).1) = displayError pages g ∧
    (displayError pages g).2 =
      (displayError pages ((displayError pages g).1)).2 :=
  ⟨rfl, rfl, rfl, rfl, rfl, rfl⟩

end EInk
